import Mathlib

/-!
Verification development for the pyddd repository.

The repository offers three decorator families: a value-object decorator
(two divergent implementations, one in dddpy/value_object.py and one in
dddpy/business/domain_model/value_object.py), an entity decorator
(dddpy/business/domain_model/entity.py) and an aggregate validator
(dddpy/business/domain_model/aggregate.py).  The development below is a
shallow embedding of the relevant runtime machinery: attribute
dictionaries, the replaced setattr methods, the generated equality and
hash methods, the decorator factories and the process-wide registries.

Modeling conventions:
- Python attribute values are modeled by the inductive PyVal; only the
  constructors the claims need are present (ints, strings, None and
  function objects, the latter standing for any value with a writable
  attribute dictionary).
- Raised exceptions are modeled by Except with a PyError payload whose
  constructors mirror the exception classes involved (AttributeError,
  TypeError, ImmutabilityException, NoEntityIDException).  Message texts
  built by the repository are reproduced except that the single-quote
  characters around interpolated names are elided; message texts that
  CPython itself produces are paraphrased, and only their exception kind
  is relied upon.
- Python dicts keep insertion order: assignment to a present key updates
  in place, assignment to a fresh key appends.
-/

/-- Modeled Python runtime values.  funcV stands for a function object,
the representative of values whose attributes can be assigned (a writable
attribute dictionary); intV, strV and noneV reject attribute assignment,
as their CPython counterparts do. -/
inductive PyVal where
| intV : Int → PyVal
| strV : String → PyVal
| noneV : PyVal
| funcV : String → PyVal
deriving DecidableEq, Repr

/-- Modeled Python exceptions, one constructor per exception class the
claims mention, each carrying the message string. -/
inductive PyError where
| attributeError : String → PyError
| typeError : String → PyError
| immutabilityException : String → PyError
| noEntityIDException : String → PyError
deriving DecidableEq, Repr

deriving instance DecidableEq for Except

/-- Ordered-dict lookup. -/
def dictGet {α : Type} : List (String × α) → String → Option α
| [], _ => none
| (k, v) :: rest, key => if k = key then some v else dictGet rest key

/-- Ordered-dict assignment: update in place when the key is present,
append when it is fresh (Python insertion order). -/
def dictSet {α : Type} : List (String × α) → String → α → List (String × α)
| [], key, v => [(key, v)]
| (k, v0) :: rest, key, v =>
  if k = key then (k, v) :: rest else (k, v0) :: dictSet rest key v

/-- A Python instance: the name of its class and its attribute dict. -/
structure PyInstance where
  clsName : String
  dict : List (String × PyVal)
deriving DecidableEq, Repr

/-- hasattr on the modeled instance dict (for the instances built here,
all attributes live in the instance dict). -/
def hasattrB (inst : PyInstance) (name : String) : Bool :=
  (dictGet inst.dict name).isSome

/-- Default object attribute assignment: store into the instance dict. -/
def object_setattr (inst : PyInstance) (name : String) (v : PyVal) : PyInstance :=
  { inst with dict := dictSet inst.dict name v }

/-- The message built by ImmutabilityException in
dddpy/business/domain_model/value_object.py, lines 13-17: it interpolates
the name of the class of the instance and the attribute being assigned
(single quotes elided). -/
def immutabilityMessage (clsName attr : String) : String :=
  "Cannot modify " ++ clsName ++ "." ++ attr ++ "; value objects are immutable"

/-- The new_setattr installed by ValueObjectDecorator.enforce_immutability
(dddpy/business/domain_model/value_object.py, lines 146-150): every
attribute assignment raises ImmutabilityException, for any attribute name,
whether or not the attribute is already present. -/
def enforce_immutability_setattr (inst : PyInstance) (name : String) (_v : PyVal) :
    Except PyError PyInstance :=
  .error (.immutabilityException (immutabilityMessage inst.clsName name))

namespace ValueObject

/-- The new_setattr installed by ValueObject.enforce_immutability
(dddpy/value_object.py, lines 62-85): when the instance already has the
attribute it raises a plain AttributeError whose message interpolates only
the attribute name; otherwise it falls through to the original setattr and
the assignment succeeds. -/
def new_setattr (inst : PyInstance) (name : String) (v : PyVal) :
    Except PyError PyInstance :=
  if hasattrB inst name then
    .error (.attributeError ("Cannot modify " ++ name ++ "; value objects are immutable"))
  else
    .ok (object_setattr inst name v)

end ValueObject

/-- An instance whose attribute values are all ints, the setting in which
the sorted-value comparison of dddpy/value_object.py is well defined
(Python sorted raises on incomparable mixed types). -/
structure IntInstance where
  clsName : String
  attrs : List (String × Int)
deriving DecidableEq, Repr

/-- The attribute values of the instance in insertion (field) order,
Python dict values(). -/
def valsOf (a : IntInstance) : List Int := a.attrs.map Prod.snd

/-- Insertion into a sorted list, ascending. -/
def insertSorted (x : Int) : List Int → List Int
| [] => [x]
| y :: ys => if x ≤ y then x :: y :: ys else y :: insertSorted x ys

/-- Python sorted() on a list of ints: ascending order. -/
def pySorted (l : List Int) : List Int := l.foldr insertSorted []

namespace ValueObject

/-- The eq installed by ValueObject.override_equality_methods
(dddpy/value_object.py, lines 102-109): an isinstance check on the class,
then comparison of the SORTED lists of attribute values. -/
def eqMethod (a b : IntInstance) : Bool :=
  (a.clsName == b.clsName) && (pySorted (valsOf a) == pySorted (valsOf b))

/-- The tuple handed to hash() by the installed lambda
(dddpy/value_object.py, line 110): the UNSORTED attribute values in field
order.  CPython applies hash() to this tuple; distinct int tuples such as
(1, 2) and (2, 1) have distinct CPython hashes. -/
def hashKey (a : IntInstance) : List Int := valsOf a

end ValueObject

namespace DataclassVO

/-- The eq generated by dataclass(frozen=True, slots=True, order=True,
kw_only=True) in ValueObjectDecorator.init
(dddpy/business/domain_model/value_object.py, lines 128-134): same class
and equality of the ordered field-value tuples. -/
def eqMethod (a b : IntInstance) : Bool :=
  (a.clsName == b.clsName) && (valsOf a == valsOf b)

/-- The tuple hashed by the dataclass-generated hash: the ordered
field-value tuple, the same values the generated eq compares. -/
def hashKey (a : IntInstance) : List Int := valsOf a

end DataclassVO

/-- A class presented to the business value-object machinery: its name,
docstring, ordered type hints (field name and type-hint name), class-level
attribute dict, and whether its init-subclass hook accepts keyword
arguments.  The last field matters because ValueObjectDecorator.new calls
type(name, bases, dct, metaclass=ValueObjectMeta), and CPython forwards
the unexpected metaclass keyword to the init-subclass hook of the base,
which raises TypeError unless the hook accepts keyword arguments. -/
structure AnnotClass where
  name : String
  doc : Option String
  hints : List (String × String)
  classAttrs : List (String × PyVal)
  initSubclassKw : Bool
deriving DecidableEq, Repr

/-- The class produced by the dataclass transformation inside
ValueObjectDecorator.init: same name and docstring, fields taken from the
ordered type hints. -/
structure VOClass where
  name : String
  doc : Option String
  fields : List (String × String)
deriving DecidableEq, Repr

/-- dataclass(frozen=True, slots=True, order=True, kw_only=True) applied
to the wrapped class (dddpy/business/domain_model/value_object.py, lines
129-134). -/
def dataclassTransform (c : AnnotClass) : VOClass :=
  ⟨c.name, c.doc, c.hints⟩

/-- A ValueObjectDecorator instance right after init: it holds the
dataclass-transformed class (the subclass built in new with the
ValueObjectMeta metaclass is discarded, because init reassigns the
decorated_cls attribute). -/
structure VODInstance where
  decorated_cls : VOClass
deriving DecidableEq, Repr

/-- The same instance after functools.wraps copied the metadata of the
wrapped class onto it. -/
structure VOWrapper where
  inst : VODInstance
  name : String
  doc : Option String
deriving DecidableEq, Repr

/-- ValueObjectDecorator.new (dddpy/business/domain_model/value_object.py,
lines 117-126): it calls type(name, (decorated_cls,), dct,
metaclass=ValueObjectMeta).  CPython passes the unexpected metaclass
keyword on to the init-subclass hook, so this raises TypeError for every
decorated class whose init-subclass hook rejects keyword arguments (all
ordinary classes); the subclass built here is discarded by init anyway. -/
def ValueObjectDecorator_new (c : AnnotClass) : Except PyError Unit :=
  if c.initSubclassKw then .ok ()
  else .error (.typeError (c.name ++ " init subclass hook takes no keyword arguments"))

/-- ValueObjectDecorator.init (dddpy/business/domain_model/value_object.py,
lines 128-137): dataclass-transform the wrapped class, install the
immutability setattr (modeled by enforce_immutability_setattr), and append
the transformed class to the class-level value-objects registry. -/
def ValueObjectDecorator_init (c : AnnotClass) (vos : List VOClass) :
    VODInstance × List VOClass :=
  (⟨dataclassTransform c⟩, vos ++ [dataclassTransform c])

/-- Constructing ValueObjectDecorator(cls): new runs first and can raise;
only if it succeeds does init run and touch the registry. -/
def ValueObjectDecorator_mk (c : AnnotClass) (vos : List VOClass) :
    Except PyError (VODInstance × List VOClass) :=
  match ValueObjectDecorator_new c with
  | .error e => .error e
  | .ok _ => .ok (ValueObjectDecorator_init c vos)

/-- functools.wraps(wrapped_cls, updated=()) applied to the decorator
instance (dddpy/business/domain_model/value_object.py, line 188): copies
the metadata of the wrapped class, in particular its name and docstring,
onto the instance and returns that same instance. -/
def functools_wraps (c : AnnotClass) (i : VODInstance) : VOWrapper :=
  ⟨i, c.name, c.doc⟩

/-- The inner decorator function of the value_object factory
(dddpy/business/domain_model/value_object.py, lines 182-189). -/
def vo_decorator (c : AnnotClass) (vos : List VOClass) :
    Except PyError (VOWrapper × List VOClass) :=
  match ValueObjectDecorator_mk c vos with
  | .error e => .error e
  | .ok (i, vos2) => .ok (functools_wraps c i, vos2)

/-- Whether assigning an attribute on the value succeeds in CPython:
function objects carry a writable attribute dictionary; int, str and None
instances raise AttributeError on attribute assignment. -/
def PyVal.supportsSetAnnots : PyVal → Bool
| .funcV _ => true
| _ => false

/-- The value_object factory (dddpy/business/domain_model/value_object.py,
lines 174-192).  Before anything else it executes two statements on its
argument cls: an assignment to the attribute dict of cls.x, then cls.x =
the string c.  The result triple is (the state of the cls argument after
the call, with mutations kept even when an exception was raised;
the returned value or raised exception; the registry after the call).
With cls = None the attribute access on None raises AttributeError at
once, so the called form of the decorator never reaches any class. -/
def value_object (cls : Option AnnotClass) (vos : List VOClass) :
    Option AnnotClass × Except PyError VOWrapper × List VOClass :=
  match cls with
  | none =>
    (none, .error (.attributeError "NoneType object has no attribute x"), vos)
  | some c =>
    match dictGet c.classAttrs "x" with
    | none =>
      (some c, .error (.attributeError ("type object " ++ c.name ++ " has no attribute x")), vos)
    | some v =>
      if v.supportsSetAnnots then
        let c2 := { c with classAttrs := dictSet c.classAttrs "x" (PyVal.strV "c") }
        match vo_decorator c2 vos with
        | .error e => (some c2, .error e, vos)
        | .ok (w, vos2) => (some c2, .ok w, vos2)
      else
        (some c, .error (.attributeError "the annotations attribute of the value is not writable"), vos)

/-- A class handed to the entity decorator: name, docstring and the
original initializer, mapping constructor arguments to the instance
attribute dict. -/
structure PyClass where
  name : String
  doc : Option String
  init : List PyVal → List (String × PyVal)

/-- An Entity wrapper instance (class _Entity) after functools.wraps
copied the metadata of the wrapped class onto it
(dddpy/business/domain_model/entity.py, lines 19-50). -/
structure EntityObj where
  cls : PyClass
  id_attr : Option String
  name : String
  doc : Option String

/-- entity(unique_id_attr) applied to a class: the decorator returns
functools.wraps(cls, updated=())(Entity(cls, unique_id_attr)).  Note that
the enforce-unique-id method is never invoked anywhere in the repository,
so the wrapped class keeps its original initializer. -/
def entity_decorate (uid : Option String) (cls : PyClass) : EntityObj :=
  ⟨cls, uid, cls.name, cls.doc⟩

/-- Calling the entity wrapper (Entity call method, lines 25-26): it just
constructs via the wrapped class with its original initializer; no
identity check runs. -/
def EntityObj.construct (e : EntityObj) (args : List PyVal) : PyInstance :=
  ⟨e.cls.name, e.cls.init args⟩

/-- getattr on the modeled instance dict. -/
def getattrOpt (inst : PyInstance) (attr : String) : Option PyVal :=
  dictGet inst.dict attr

/-- The new_init that Entity enforce-unique-id (lines 28-36) would install
if it were ever called: run the original initializer, then getattr the
identity attribute; getattr with a None name raises TypeError, a missing
attribute raises AttributeError, a None value raises NoEntityIDException
interpolating the class name, and otherwise construction succeeds. -/
def enforced_init (cls : PyClass) (id_attr : Option String) (args : List PyVal) :
    Except PyError PyInstance :=
  let inst : PyInstance := ⟨cls.name, cls.init args⟩
  match id_attr with
  | none => .error (.typeError "attribute name must be string, not NoneType")
  | some a =>
    match getattrOpt inst a with
    | none => .error (.attributeError (cls.name ++ " object has no attribute " ++ a))
    | some PyVal.noneV =>
      .error (.noEntityIDException ("Entity " ++ cls.name ++ " must have a unique ID"))
    | some _ => .ok inst

/-- The kinds of object the aggregate decorator can receive: an instance
of ValueObjectDecorator (a business-decorated value object), an instance
of the Entity wrapper (a decorated entity), or anything else. -/
inductive DomainObj where
| voDec : VOWrapper → DomainObj
| entityDec : EntityObj → DomainObj
| otherObj : String → DomainObj

/-- The Aggregate decorator factory state: the root flag
(dddpy/business/domain_model/aggregate.py, lines 23-24). -/
structure Aggregate where
  root : Bool

/-- Aggregate validate-entity-or-vo (lines 37-41): isinstance check
against ValueObjectDecorator or the Entity wrapper. -/
def validate_entity_or_vo : DomainObj → Except PyError Unit
| .voDec _ => .ok ()
| .entityDec _ => .ok ()
| .otherObj _ => .error (.typeError "Aggregates must only include entities and value objects")

/-- Aggregate validate-root-is-entity (lines 32-35): isinstance check
against the Entity wrapper only. -/
def validate_root_is_entity : DomainObj → Except PyError Unit
| .entityDec _ => .ok ()
| _ => .error (.typeError "Aggregate roots must be entities")

/-- Aggregate call (lines 26-30): validate membership, then, when the
root flag is set, validate that the argument is an entity, and return the
argument itself unchanged. -/
def Aggregate.call (a : Aggregate) (c : DomainObj) : Except PyError DomainObj :=
  match validate_entity_or_vo c with
  | .error e => .error e
  | .ok _ =>
    if a.root then
      match validate_root_is_entity c with
      | .error e => .error e
      | .ok _ => .ok c
    else .ok c

/-- A registered condition function: it returns a bool or a pair of a
bool and a message (the plain-bool form is modeled with message none). -/
def Condition : Type := PyVal → Bool × Option String

/-- The Conditioner descriptor (dddpy/business/domain_model/value_object.py,
lines 24-51): an attribute name, its type hint, and the ordered lists of
registered precondition and postcondition functions. -/
structure Conditioner where
  name : String
  type_hint : String
  preconditions : List Condition
  postconditions : List Condition

/-- Conditioner.precondition (lines 45-47): append to the precondition
list. -/
def Conditioner.precondition (c : Conditioner) (f : Condition) : Conditioner :=
  { c with preconditions := c.preconditions ++ [f] }

/-- Conditioner.postcondition (lines 49-51): append to the postcondition
list. -/
def Conditioner.postcondition (c : Conditioner) (f : Condition) : Conditioner :=
  { c with postconditions := c.postconditions ++ [f] }

/-- Conditioner.condition (lines 40-43): register as both a precondition
and a postcondition. -/
def Conditioner.condition (c : Conditioner) (f : Condition) : Conditioner :=
  (c.precondition f).postcondition f

/-- The set method of the Conditioner descriptor (lines 37-38): it stores
the value into the instance dict unconditionally; the registered
precondition and postcondition lists are never consulted, there and
nowhere else in the repository. -/
def Conditioner.set (c : Conditioner) (inst : PyInstance) (v : PyVal) : PyInstance :=
  { inst with dict := dictSet inst.dict c.name v }

/-- The process-wide registries: the class-level value-objects list of
ValueObjectDecorator, and the all-aggregates collection of Aggregate.
The latter is initialized to an empty dict and no code path ever inserts
into it (the add method of AggregateCollection is a bare pass), so it is
modeled by its key list. -/
structure Registries where
  value_objects : List VOClass
  all_aggregates : List String
deriving DecidableEq, Repr

/-- The registries at interpreter start: both empty. -/
def startRegistries : Registries := ⟨[], []⟩

/-- The operations of the programmatic surface that could touch the
registries: applying the business value-object factory, applying the
entity decorator, applying an aggregate decorator. -/
inductive Op where
| decorateVO : Option AnnotClass → Op
| decorateEntity : Option String → PyClass → Op
| applyAggregate : Bool → DomainObj → Op

/-- The effect of one operation on the registries: only a value-object
decoration that reaches ValueObjectDecorator.init appends (one element);
entity decoration and aggregate application never touch the registries. -/
def step (s : Registries) : Op → Registries
| .decorateVO c => { s with value_objects := (value_object c s.value_objects).2.2 }
| .decorateEntity _ _ => s
| .applyAggregate _ _ => s

/-- Running a sequence of operations from a registry state. -/
def runOps (s : Registries) : List Op → Registries
| [] => s
| op :: ops => runOps (step s op) ops

/-- get_value_objects (dddpy/business/domain_model/value_object.py, lines
162-167): returns the value-objects registry. -/
def get_value_objects (s : Registries) : List VOClass := s.value_objects

/-- get_aggregates (dddpy/business/domain_model/aggregate.py, lines
44-45): returns the all-aggregates collection. -/
def get_aggregates (s : Registries) : List String := s.all_aggregates

/-- A class the business pipeline decorates successfully: its class
attribute x is a function object (so the assignment to its attribute dict
succeeds) and its init-subclass hook accepts keyword arguments (so
ValueObjectDecorator.new does not raise). -/
def sampleCls : AnnotClass :=
  ⟨"Point", some "A point.", [("y", "int")], [("x", PyVal.funcV "xfn")], true⟩

/-- sampleCls after the factory overwrote its class attribute x with the
string c. -/
def sampleClsMutated : AnnotClass :=
  ⟨"Point", some "A point.", [("y", "int")], [("x", PyVal.strV "c")], true⟩

/-- The dataclass-transformed class the decoration of sampleCls yields. -/
def sampleVOClass : VOClass := ⟨"Point", some "A point.", [("y", "int")]⟩

/-- The wrapper instance the decoration of sampleCls returns. -/
def sampleWrapper : VOWrapper := ⟨⟨sampleVOClass⟩, "Point", some "A point."⟩

/-- A class whose initializer leaves the identity attribute uid equal to
None. -/
def userCls : PyClass := ⟨"User", some "A user.", fun _ => [("uid", PyVal.noneV)]⟩

/-- A class whose class attribute x is the int 5: assigning to the
attribute dict of an int raises AttributeError in CPython. -/
def intAttrCls : AnnotClass := ⟨"WithIntX", none, [], [("x", PyVal.intV 5)], true⟩

/-- A condition function demanding a positive int, with the message form
of the return value. -/
def positiveCond : Condition := fun v =>
  match v with
  | PyVal.intV n => (decide (0 < n), some "must be positive")
  | _ => (false, some "must be positive")

/-- A Conditioner for field x with positiveCond registered as a
precondition. -/
def xCond : Conditioner := (Conditioner.mk "x" "int" [] []).precondition positiveCond

/-- Characterization of the factory on a class argument, by the three
stages of the source: the lookup of class attribute x, the writability of
that value, and the keyword tolerance of the init-subclass hook. -/
theorem value_object_some_eq (c : AnnotClass) (vos : List VOClass) :
    value_object (some c) vos =
      match dictGet c.classAttrs "x" with
      | none =>
        (some c, .error (.attributeError ("type object " ++ c.name ++ " has no attribute x")), vos)
      | some v =>
        if v.supportsSetAnnots then
          if c.initSubclassKw then
            (some { c with classAttrs := dictSet c.classAttrs "x" (PyVal.strV "c") },
             .ok ⟨⟨⟨c.name, c.doc, c.hints⟩⟩, c.name, c.doc⟩,
             vos ++ [⟨c.name, c.doc, c.hints⟩])
          else
            (some { c with classAttrs := dictSet c.classAttrs "x" (PyVal.strV "c") },
             .error (.typeError (c.name ++ " init subclass hook takes no keyword arguments")),
             vos)
        else
          (some c,
           .error (.attributeError "the annotations attribute of the value is not writable"),
           vos) := by
  cases hx : dictGet c.classAttrs "x" with
  | none => simp [value_object, hx]
  | some v =>
    by_cases hs : v.supportsSetAnnots <;>
    by_cases hk : c.initSubclassKw <;>
    simp [value_object, hx, hs, hk, vo_decorator, ValueObjectDecorator_mk,
      ValueObjectDecorator_new, ValueObjectDecorator_init, functools_wraps,
      dataclassTransform]

/-- The factory call leaves the registry an extension of what it was. -/
theorem value_object_registry_extends (c : Option AnnotClass) (vos : List VOClass) :
    ∃ t, (value_object c vos).2.2 = vos ++ t := by
  cases c with
  | none => exact ⟨[], by simp [value_object]⟩
  | some a =>
    rw [value_object_some_eq]
    cases hx : dictGet a.classAttrs "x" with
    | none => exact ⟨[], by simp⟩
    | some v =>
      by_cases hs : v.supportsSetAnnots
      · by_cases hk : a.initSubclassKw
        · exact ⟨[⟨a.name, a.doc, a.hints⟩], by simp [hs, hk]⟩
        · exact ⟨[], by simp [hs, hk]⟩
      · exact ⟨[], by simp [hs]⟩

/-- One operation leaves the value-objects registry an extension and the
all-aggregates collection untouched. -/
theorem step_registry (s : Registries) (op : Op) :
    (∃ t, (step s op).value_objects = s.value_objects ++ t)
    ∧ (step s op).all_aggregates = s.all_aggregates := by
  cases op with
  | decorateVO c =>
    obtain ⟨t, ht⟩ := value_object_registry_extends c s.value_objects
    exact ⟨⟨t, ht⟩, rfl⟩
  | decorateEntity u c => exact ⟨⟨[], by simp [step]⟩, rfl⟩
  | applyAggregate r d => exact ⟨⟨[], by simp [step]⟩, rfl⟩

/-- Any operation sequence leaves the value-objects registry an extension
and the all-aggregates collection untouched. -/
theorem runOps_registry (ops : List Op) : ∀ s : Registries,
    (∃ t, (runOps s ops).value_objects = s.value_objects ++ t)
    ∧ (runOps s ops).all_aggregates = s.all_aggregates := by
  induction ops with
  | nil => intro s; exact ⟨⟨[], by simp [runOps]⟩, rfl⟩
  | cons op ops ih =>
    intro s
    obtain ⟨⟨t1, h1⟩, h2⟩ := step_registry s op
    obtain ⟨⟨t2, h3⟩, h4⟩ := ih (step s op)
    refine ⟨⟨t1 ++ t2, ?_⟩, ?_⟩
    · show (runOps (step s op) ops).value_objects = _
      rw [h3, h1, List.append_assoc]
    · show (runOps (step s op) ops).all_aggregates = _
      rw [h4, h2]

/-- A sequence made of aggregate applications only does not change the
registries at all. -/
theorem runOps_aggregate_only : ∀ (ops : List Op),
    (∀ op ∈ ops, ∃ r d, op = Op.applyAggregate r d) →
    ∀ s, runOps s ops = s := by
  intro ops
  induction ops with
  | nil => intro _ s; rfl
  | cons op ops ih =>
    intro h s
    obtain ⟨r, d, hop⟩ := h op (List.mem_cons_self op ops)
    subst hop
    show runOps (step s (Op.applyAggregate r d)) ops = s
    exact ih (fun o ho => h o (List.mem_cons_of_mem _ ho)) s

/-- Claim C1, counterexample.  Under the top-level implementation
(dddpy/value_object.py), assigning to the existing attribute x of an
instance of a decorated class raises a plain AttributeError whose message
does not contain the class name, not an ImmutabilityException, and
assigning to an attribute the instance does not yet have succeeds
outright, so the claim as stated is false for classes decorated with that
value_object. -/
theorem C1_counterexample :
    ValueObject.new_setattr ⟨"MyClass", [("x", PyVal.intV 5)]⟩ "x" (PyVal.intV 10)
      = .error (.attributeError "Cannot modify x; value objects are immutable")
    ∧ ValueObject.new_setattr ⟨"MyClass", [("x", PyVal.intV 5)]⟩ "z" (PyVal.intV 1)
      = .ok ⟨"MyClass", [("x", PyVal.intV 5), ("z", PyVal.intV 1)]⟩ := by
  exact ⟨by decide, by decide⟩

/-- Claim C1, amended.  The domain_model implementation raises
ImmutabilityException for every assignment, with a message interpolating
the class of the instance and the attribute; the top-level implementation
raises AttributeError, naming only the attribute, exactly when the
attribute already exists, and otherwise performs the assignment. -/
theorem C1_corrected (inst : PyInstance) (attr : String) (v : PyVal) :
    enforce_immutability_setattr inst attr v
      = .error (.immutabilityException
          ("Cannot modify " ++ inst.clsName ++ "." ++ attr ++ "; value objects are immutable"))
    ∧ (hasattrB inst attr = true →
        ValueObject.new_setattr inst attr v
          = .error (.attributeError ("Cannot modify " ++ attr ++ "; value objects are immutable")))
    ∧ (hasattrB inst attr = false →
        ValueObject.new_setattr inst attr v = .ok (object_setattr inst attr v)) := by
  refine ⟨rfl, ?_, ?_⟩
  · intro hh; simp [ValueObject.new_setattr, hh]
  · intro hh; simp [ValueObject.new_setattr, hh]

/-- Claim C1, witness for the amended theorem at a concrete instance with
an existing attribute. -/
theorem C1_witness :
    hasattrB ⟨"MyClass", [("x", PyVal.intV 5)]⟩ "x" = true
    ∧ ValueObject.new_setattr ⟨"MyClass", [("x", PyVal.intV 5)]⟩ "x" (PyVal.intV 10)
      = .error (.attributeError ("Cannot modify " ++ "x" ++ "; value objects are immutable")) :=
  ⟨by decide,
   (C1_corrected ⟨"MyClass", [("x", PyVal.intV 5)]⟩ "x" (PyVal.intV 10)).2.1 (by decide)⟩

/-- Claim C2, counterexample.  Under the top-level implementation two
same-class instances whose values are permutations of each other compare
equal although their ordered field values differ, and the tuples their
hash is computed from differ as well, so the claim as stated fails. -/
theorem C2_counterexample :
    ValueObject.eqMethod ⟨"P", [("x", 1), ("y", 2)]⟩ ⟨"P", [("x", 2), ("y", 1)]⟩ = true
    ∧ valsOf ⟨"P", [("x", 1), ("y", 2)]⟩ ≠ valsOf ⟨"P", [("x", 2), ("y", 1)]⟩
    ∧ ValueObject.hashKey ⟨"P", [("x", 1), ("y", 2)]⟩
        ≠ ValueObject.hashKey ⟨"P", [("x", 2), ("y", 1)]⟩ := by
  exact ⟨by decide, by decide, by decide⟩

/-- Claim C2, amended.  For same-class instances, the dataclass equality
of the domain_model implementation holds exactly when the ordered
field-value tuples are equal, and equal instances hash the same tuple; the
top-level implementation instead compares the SORTED value lists, so
instances with permuted values compare equal. -/
theorem C2_corrected (a b : IntInstance) (h : a.clsName = b.clsName) :
    DataclassVO.eqMethod a b = (valsOf a == valsOf b)
    ∧ (DataclassVO.eqMethod a b = true → DataclassVO.hashKey a = DataclassVO.hashKey b)
    ∧ (valsOf a ≠ valsOf b → DataclassVO.eqMethod a b = false)
    ∧ ValueObject.eqMethod a b = (pySorted (valsOf a) == pySorted (valsOf b)) := by
  refine ⟨?_, ?_, ?_, ?_⟩
  · simp [DataclassVO.eqMethod, h]
  · intro he
    simp only [DataclassVO.eqMethod, Bool.and_eq_true, beq_iff_eq] at he
    simpa [DataclassVO.hashKey] using he.2
  · intro hv
    have h2 : (valsOf a == valsOf b) = false := beq_eq_false_iff_ne.mpr hv
    simp [DataclassVO.eqMethod, h2]
  · simp [ValueObject.eqMethod, h]

/-- Claim C2, witness for the amended theorem at two concrete same-class
instances with equal values. -/
theorem C2_witness :
    DataclassVO.hashKey ⟨"P", [("x", 3)]⟩ = DataclassVO.hashKey ⟨"P", [("z", 3)]⟩ :=
  (C2_corrected ⟨"P", [("x", 3)]⟩ ⟨"P", [("z", 3)]⟩ rfl).2.1 (by decide)

/-- Claim C3: the source defines the enforcement method but the entity
decorator never calls it, so constructing an instance whose initializer
leaves the identity attribute None succeeds, where the claim says it must
raise NoEntityIDException; the second conjunct evaluates the new_init that
the never-invoked enforcement would have installed, which does raise. -/
theorem C3_code_bug :
    (entity_decorate (some "uid") userCls).construct [] = ⟨"User", [("uid", PyVal.noneV)]⟩
    ∧ enforced_init userCls (some "uid") [] =
        .error (.noEntityIDException ("Entity " ++ "User" ++ " must have a unique ID")) := by
  exact ⟨rfl, rfl⟩

/-- Claim C4: aggregate validation accepts a decorated entity for both
root flags, accepts a decorated value object only when root is false,
rejects everything else with TypeError, and always returns its argument
unchanged on success. -/
theorem C4_confirmed (w : VOWrapper) (e : EntityObj) (s : String) :
    (Aggregate.mk false).call (.voDec w) = .ok (.voDec w)
    ∧ (Aggregate.mk false).call (.entityDec e) = .ok (.entityDec e)
    ∧ (Aggregate.mk false).call (.otherObj s)
        = .error (.typeError "Aggregates must only include entities and value objects")
    ∧ (Aggregate.mk true).call (.entityDec e) = .ok (.entityDec e)
    ∧ (Aggregate.mk true).call (.voDec w)
        = .error (.typeError "Aggregate roots must be entities")
    ∧ (Aggregate.mk true).call (.otherObj s)
        = .error (.typeError "Aggregates must only include entities and value objects") := by
  exact ⟨rfl, rfl, rfl, rfl, rfl, rfl⟩

/-- Claim C5: a precondition is registered on the field x, it fails on the
value -5, yet the set method of the descriptor stores -5 into the instance
and raises nothing, because the stored condition lists are never
evaluated by any code path in the repository. -/
theorem C5_code_bug :
    xCond.preconditions.length = 1
    ∧ (positiveCond (PyVal.intV (-5))).1 = false
    ∧ xCond.set ⟨"M", []⟩ (PyVal.intV (-5)) = ⟨"M", [("x", PyVal.intV (-5))]⟩ := by
  exact ⟨rfl, by decide, rfl⟩

/-- Claim C6: the called form value_object() hands the factory None, and
the attribute access on None raises AttributeError before any class is
seen, while the bare form on a decoratable class returns a wrapper, so the
two usages do not behave identically. -/
theorem C6_code_bug :
    value_object none [] =
      (none, .error (.attributeError "NoneType object has no attribute x"), [])
    ∧ value_object (some sampleCls) []
        = (some sampleClsMutated, .ok sampleWrapper, [sampleVOClass]) := by
  exact ⟨rfl, by decide⟩

/-- Claim C7: when the business factory succeeds, the returned wrapper
carries the name and docstring of the wrapped class (functools.wraps),
and the entity decorator likewise preserves both. -/
theorem C7_confirmed (c : AnnotClass) (vos : List VOClass) (w : VOWrapper)
    (uid : Option String) (cls : PyClass)
    (h : (value_object (some c) vos).2.1 = .ok w) :
    w.name = c.name ∧ w.doc = c.doc
    ∧ (entity_decorate uid cls).name = cls.name
    ∧ (entity_decorate uid cls).doc = cls.doc := by
  rw [value_object_some_eq] at h
  cases hx : dictGet c.classAttrs "x" with
  | none => rw [hx] at h; simp at h
  | some v =>
    rw [hx] at h
    by_cases hs : v.supportsSetAnnots
    · by_cases hk : c.initSubclassKw
      · simp only [hs, hk, if_true] at h
        simp only [Except.ok.injEq] at h
        subst h
        exact ⟨rfl, rfl, rfl, rfl⟩
      · simp [hs, hk] at h
    · simp [hs] at h

/-- Claim C7, witness at the concrete decoratable class. -/
theorem C7_witness :
    sampleWrapper.name = sampleCls.name ∧ sampleWrapper.doc = sampleCls.doc
    ∧ (entity_decorate (some "uid") userCls).name = userCls.name
    ∧ (entity_decorate (some "uid") userCls).doc = userCls.doc :=
  C7_confirmed sampleCls [] sampleWrapper (some "uid") userCls (by decide)

/-- Claim C8: a successful value-object decoration appends exactly the
newly decorated class to the list get_value_objects returns, and any
operation sequence only ever extends the registries, never removing or
replacing an entry. -/
theorem C8_confirmed (s : Registries) (c : Option AnnotClass) (w : VOWrapper)
    (h : (value_object c s.value_objects).2.1 = .ok w) :
    get_value_objects (step s (.decorateVO c))
      = get_value_objects s ++ [w.inst.decorated_cls]
    ∧ ∀ (ops : List Op) (s0 : Registries),
        ∃ t u, (runOps s0 ops).value_objects = s0.value_objects ++ t
          ∧ (runOps s0 ops).all_aggregates = s0.all_aggregates ++ u := by
  constructor
  · show (value_object c s.value_objects).2.2 = s.value_objects ++ [w.inst.decorated_cls]
    cases c with
    | none => simp [value_object] at h
    | some a =>
      rw [value_object_some_eq] at h ⊢
      cases hx : dictGet a.classAttrs "x" with
      | none => rw [hx] at h; simp at h
      | some v =>
        rw [hx] at h
        by_cases hs : v.supportsSetAnnots
        · by_cases hk : a.initSubclassKw
          · simp only [hs, hk, if_true] at h ⊢
            simp only [Except.ok.injEq] at h
            subst h
            rfl
          · simp [hs, hk] at h
        · simp [hs] at h
  · intro ops s0
    obtain ⟨⟨t, ht⟩, ha⟩ := runOps_registry ops s0
    exact ⟨t, [], ht, by simp [ha]⟩

/-- Claim C8, witness: decorating the concrete decoratable class from the
start state appends exactly its dataclass-transformed class. -/
theorem C8_witness :
    get_value_objects (step startRegistries (Op.decorateVO (some sampleCls)))
      = get_value_objects startRegistries ++ [sampleWrapper.inst.decorated_cls] :=
  (C8_confirmed startRegistries (some sampleCls) sampleWrapper (by decide)).1

/-- Claim C9, counterexample: a class whose class attribute x is the int 5
makes the factory raise AttributeError at the assignment to the attribute
dict of that int, before the overwrite, so x is NOT overwritten with the
string c although the class attribute x exists. -/
theorem C9_counterexample :
    value_object (some intAttrCls) [] =
      (some intAttrCls,
       .error (.attributeError "the annotations attribute of the value is not writable"), [])
    ∧ dictGet intAttrCls.classAttrs "x" = some (PyVal.intV 5) := by
  exact ⟨by decide, by decide⟩

/-- Claim C9, amended: the factory touches attribute x of its argument
before decorating, so the called form (argument None) always raises
AttributeError and the bare form on a class without class attribute x
raises AttributeError; when class attribute x exists and its value accepts
attribute assignment (a function object), x is overwritten with the string
c before decoration proceeds, but when the value rejects attribute
assignment (an int), AttributeError is raised first and x is left
unchanged. -/
theorem C9_corrected (c : AnnotClass) (vos : List VOClass) :
    value_object none vos
      = (none, .error (.attributeError "NoneType object has no attribute x"), vos)
    ∧ (dictGet c.classAttrs "x" = none →
        value_object (some c) vos =
          (some c,
           .error (.attributeError ("type object " ++ c.name ++ " has no attribute x")), vos))
    ∧ (∀ f, dictGet c.classAttrs "x" = some (PyVal.funcV f) →
        (value_object (some c) vos).1 =
          some { c with classAttrs := dictSet c.classAttrs "x" (PyVal.strV "c") })
    ∧ (∀ n, dictGet c.classAttrs "x" = some (PyVal.intV n) →
        (value_object (some c) vos).1 = some c
        ∧ (value_object (some c) vos).2.1 =
            .error (.attributeError "the annotations attribute of the value is not writable")) := by
  refine ⟨rfl, ?_, ?_, ?_⟩
  · intro hx; rw [value_object_some_eq, hx]
  · intro f hx
    rw [value_object_some_eq, hx]
    by_cases hk : c.initSubclassKw <;> simp [PyVal.supportsSetAnnots, hk]
  · intro n hx
    constructor <;> · rw [value_object_some_eq, hx]; simp [PyVal.supportsSetAnnots]

/-- Claim C9, witness: on the concrete class whose x is a function, the
factory leaves the argument with x overwritten by the string c. -/
theorem C9_witness :
    (value_object (some sampleCls) []).1 = some sampleClsMutated := by
  have h := (C9_corrected sampleCls []).2.2.1 "xfn" (by decide)
  have h2 : ({ sampleCls with
      classAttrs := dictSet sampleCls.classAttrs "x" (PyVal.strV "c") } : AnnotClass)
      = sampleClsMutated := by decide
  rw [h2] at h
  exact h

/-- Claim C10: applying an aggregate decorator never changes the
registries, and after any sequence of aggregate applications from the
start state the all-aggregates collection get_aggregates returns is still
the initial empty one. -/
theorem C10_confirmed (ops : List Op)
    (h : ∀ op ∈ ops, ∃ r d, op = Op.applyAggregate r d) :
    (∀ (s : Registries) (r : Bool) (d : DomainObj), step s (.applyAggregate r d) = s)
    ∧ get_aggregates (runOps startRegistries ops) = []
    ∧ runOps startRegistries ops = startRegistries := by
  have hr := runOps_aggregate_only ops h startRegistries
  exact ⟨fun s r d => rfl, by rw [hr]; rfl, hr⟩

/-- Claim C10, witness at a concrete aggregate application. -/
theorem C10_witness :
    get_aggregates (runOps startRegistries
      [Op.applyAggregate true (DomainObj.otherObj "NotDomain")]) = [] :=
  (C10_confirmed [Op.applyAggregate true (DomainObj.otherObj "NotDomain")]
    (by
      intro op hop
      rw [List.mem_singleton] at hop
      exact ⟨true, DomainObj.otherObj "NotDomain", hop⟩)).2.1
